import Mathlib

/-!
Shallow embedding of the authentication/session lifecycle and team-membership
engine of the tevas.io backend (`src/backend/...`), together with theorems
settling the frozen claims about it.

Conventions of the embedding:
* wall-clock instants and durations are natural numbers of seconds
  (`datetime.now()` becomes an explicit `now : Nat` argument);
* the relational store is a record of lists of rows, threaded explicitly;
* a Python `raise` becomes `Except.error`; `HTTPException(code, detail)`
  becomes `PyErr.http code detail`; a dynamic failure such as an
  `AttributeError` or `TypeError` becomes its own error constructor, raised
  at the exact program point where CPython would raise it;
* bcrypt hashing is abstracted by the constructor `Stored.hashed`, so that a
  stored password field records whether it holds a hash of a submitted
  plaintext or the plaintext itself.
-/

set_option linter.unusedVariables false

namespace Tevas

/-- Runtime failure of a handler: either an `HTTPException(status, detail)`
raised on purpose, or an uncaught dynamic error (`AttributeError`,
`TypeError`) escaping as a 500. -/
inductive PyErr where
  | http : Nat → String → PyErr
  | attributeError : PyErr
  | typeError : PyErr
  deriving DecidableEq, Repr

/-- A value held in the `users.password` column: either the raw submitted
string or a bcrypt hash of a submitted string.  `Stored.hashed p` stands for
"some bcrypt hash whose preimage is `p`" (the salt is irrelevant to every
claim, so the hash is represented by its preimage). -/
inductive Stored where
  | plain : String → Stored
  | hashed : String → Stored
  deriving DecidableEq, Repr

/-- `password.py` lines 16-23: `get_password_hash` runs the submitted
password through the bcrypt `CryptContext`. -/
def get_password_hash (password : String) : Stored :=
  Stored.hashed password

/-- `password.py` lines 5-13: `verify_password` checks the plaintext against
a stored bcrypt hash.  A bcrypt verification succeeds exactly when the
stored value is a hash of the submitted plaintext. -/
def verify_password (plain_password : String) (hashed_password : Stored) : Bool :=
  hashed_password == Stored.hashed plain_password

/-- A signed JWT (`jwt.py`): the encoded string is represented by the claims
it embeds plus a signature-validity flag (`goodSig = false` models a token
whose signature does not verify against the configured secret). -/
structure Jwt where
  sub : Nat
  exp : Nat
  goodSig : Bool
  deriving DecidableEq, Repr

/-- `settings.py` line 40. -/
def access_token_expire_minutes : Nat := 15

/-- `settings.py` line 41. -/
def refresh_token_expire_days : Nat := 180

/-- `jwt.py` lines 10-25: access token with `sub = user_id` and
`exp = now + access_token_expire_minutes`. -/
def create_access_token (user_id now : Nat) : Jwt :=
  ⟨user_id, now + access_token_expire_minutes * 60, true⟩

/-- `jwt.py` lines 28-43: refresh token with `sub = user_id` and
`exp = now + expires_delta` (the caller passes the delta in seconds). -/
def create_refresh_token (user_id expires_sec now : Nat) : Jwt :=
  ⟨user_id, now + expires_sec, true⟩

/-- Failure modes of `jose.jwt.decode`. -/
inductive JwtFail where
  | expiredSignature
  | claims
  | jwtError
  deriving DecidableEq, Repr

/-- `jwt.py` lines 46-68: decode the token; with `verify = true` an expired
token raises `ExpiredSignatureError`; a bad signature always raises
`JWTError` regardless of the flag.  On success the payload's `sub` claim is
returned (every token minted by this codebase carries one). -/
def verify_token (token : Jwt) (now : Nat) (verify : Bool := true) :
    Except JwtFail Nat :=
  if !token.goodSig then .error .jwtError
  else if verify && decide (token.exp ≤ now) then .error .expiredSignature
  else .ok token.sub

/-- Row of `users` (`db/models/users.py` lines 10-33).  Columns not read by
any claim (last-login data, timestamps) are omitted. -/
structure User where
  id : Nat
  login : String
  email : String
  password : Stored
  status_id : Int
  first_name : String
  last_name : String
  deriving DecidableEq, Repr

/-- Row of `refresh_tokens` (`db/models/users.py` lines 35-49). -/
structure RefreshTokenRow where
  id : Nat
  value : Jwt
  user_id : Nat
  ttl_sec : Nat
  created_dt : Nat
  deriving DecidableEq, Repr

/-- Row of `user_verification_codes` (`db/models/users.py` lines 52-65).
Note the creation-timestamp column is named `created_dt`; the model has no
`created_at` attribute. -/
structure VerificationCodeRow where
  id : Nat
  user_id : Nat
  email : Option String
  code : String
  created_dt : Nat
  deriving DecidableEq, Repr

/-- The relational store seen by the auth subsystem. -/
structure AuthDB where
  users : List User
  refreshTokens : List RefreshTokenRow
  codes : List VerificationCodeRow
  deriving DecidableEq, Repr

/-- `services/auth/crud.py` lines 38-47. -/
def get_user_by_id (db : AuthDB) (user_id : Nat) : Option User :=
  db.users.find? (fun u => u.id == user_id)

/-- `services/auth/crud.py` lines 49-58. -/
def get_user_by_login (db : AuthDB) (login : String) : Option User :=
  db.users.find? (fun u => u.login == login)

/-- `services/auth/crud.py` lines 136-145. -/
def get_user_by_email (db : AuthDB) (email : String) : Option User :=
  db.users.find? (fun u => u.email == email)

/-- `services/auth/crud.py` lines 98-111, `delete_refresh_token_for_user`:
the body executes `select(RefreshToken).filter(...).delete()`.  A SQLAlchemy
`Select` object has no `delete` method, so the call raises `AttributeError`
before anything reaches the database. -/
def delete_refresh_token_for_user (db : AuthDB) (user_id : Nat)
    (token_value : Jwt) : Except PyErr AuthDB :=
  .error .attributeError

/-- `services/auth/crud.py` lines 113-133, `get_active_refresh_token`: take
the first `refresh_tokens` row of the user; return it if
`created_dt + ttl_sec > now`, otherwise lazily delete it (which raises, see
`delete_refresh_token_for_user`) and return `None`. -/
def get_active_refresh_token (db : AuthDB) (user_id now : Nat) :
    Except PyErr (Option RefreshTokenRow × AuthDB) :=
  match (db.refreshTokens.filter (fun r => r.user_id == user_id)).head? with
  | none => .ok (none, db)
  | some refresh_token =>
    if refresh_token.created_dt + refresh_token.ttl_sec > now then
      .ok (some refresh_token, db)
    else
      match delete_refresh_token_for_user db user_id refresh_token.value with
      | .error e => .error e
      | .ok db1 => .ok (none, db1)

/-- `services/auth/utils.py` lines 44-77, `create_and_store_refresh_token`:
mint a refresh JWT with ttl `refresh_token_expire_days`, delete the user's
active row if one exists, insert the new row, return the token value.
`newId` supplies the fresh primary key of the inserted row. -/
def create_and_store_refresh_token (user_id : Nat) (db : AuthDB)
    (now newId : Nat) : Except PyErr (Jwt × AuthDB) :=
  let expires_sec := refresh_token_expire_days * 86400
  let refresh_token_value := create_refresh_token user_id expires_sec now
  match get_active_refresh_token db user_id now with
  | .error e => .error e
  | .ok (old_token, db1) =>
    let db2 := match old_token with
      | some old => { db1 with refreshTokens := db1.refreshTokens.erase old }
      | none => db1
    let row : RefreshTokenRow :=
      ⟨newId, refresh_token_value, user_id, expires_sec, now⟩
    .ok (refresh_token_value, { db2 with refreshTokens := db2.refreshTokens ++ [row] })

/-- A refresh-token row is live at `now` when it has not yet expired
(the expiry test of `get_active_refresh_token`). -/
def RefreshTokenRow.liveAt (r : RefreshTokenRow) (now : Nat) : Bool :=
  r.created_dt + r.ttl_sec > now

/-- The live refresh-token rows of a user. -/
def liveTokensFor (db : AuthDB) (user_id now : Nat) : List RefreshTokenRow :=
  db.refreshTokens.filter (fun r => r.user_id == user_id && r.liveAt now)

/-- `'@' in login` for a Python string: membership of the character among
the characters of the string. -/
def containsAt (login : String) : Bool :=
  login.toList.contains '@'

/-- `services/auth/utils.py` lines 14-40, `authenticate_user`: look the user
up by email when the submitted identifier contains `'@'`, by login
otherwise; unknown user and wrong password collapse to the same 401. -/
def authenticate_user (db : AuthDB) (login password : String) :
    Except PyErr User :=
  match (if containsAt login then get_user_by_email db login
         else get_user_by_login db login) with
  | none => .error (.http 401 "Invalid credentials")
  | some u =>
    if !verify_password password u.password then
      .error (.http 401 "Invalid credentials")
    else .ok u

/-- Result of the session resolver: the authenticated user plus the access
token written to the response cookie when a transparent renewal happened. -/
structure AuthResult where
  user : User
  setCookie : Option Jwt
  deriving DecidableEq, Repr

/-- `services/auth/dependency.py` lines 100-119: second user lookup and the
account-status gate shared by both paths of `get_current_user`. -/
def resolve_user_and_gate (db : AuthDB) (user_id : Nat) (verify : Bool) :
    Except PyErr User :=
  match get_user_by_id db user_id with
  | none => .error (.http 401 "User not found")
  | some user =>
    if user.status_id == -1 then .error (.http 403 "User is banned")
    else if user.status_id == 0 && !verify then
      .error (.http 403 "User is not verified")
    else .ok user

/-- `services/auth/dependency.py` lines 12-119, `get_current_user`: resolve
the access-token cookie; on `ExpiredSignatureError` re-decode without expiry
enforcement, look the user up, require a live refresh token, mint and set a
fresh access token; then the common lookup + status gate.  `verifyPath`
models `"verify" in request.url.path`. -/
def get_current_user (db : AuthDB) (cookie : Option Jwt) (verifyPath : Bool)
    (now : Nat) : Except PyErr AuthResult :=
  match cookie with
  | none => .error (.http 401 "No access token provided")
  | some token =>
    match verify_token token now true with
    | .ok user_id =>
      match resolve_user_and_gate db user_id verifyPath with
      | .error e => .error e
      | .ok user => .ok ⟨user, none⟩
    | .error .expiredSignature =>
      -- access token expired: renewal attempt (lines 46-86)
      match verify_token token now false with
      | .error _ => .error (.http 401 "Invalid token")
      | .ok user_id =>
        match get_user_by_id db user_id with
        | none => .error (.http 401 "User not found")
        | some user =>
          match get_active_refresh_token db user.id now with
          | .error e => .error e
          | .ok (refresh_token, db1) =>
            match refresh_token with
            | none => .error (.http 401 "Refresh token not found or expired")
            | some _ =>
              let new_access_token := create_access_token user_id now
              match resolve_user_and_gate db1 user_id verifyPath with
              | .error e => .error e
              | .ok user => .ok ⟨user, some new_access_token⟩
    | .error .claims => .error (.http 401 "Invalid token claims")
    | .error .jwtError => .error (.http 401 "Invalid token")

/-- `services/auth/crud.py` lines 147-179, `create_verification_code`: if a
row exists for the user, run `update(...).values(code=code)` — only the
`code` column is written, `created_dt` and `email` keep their stored values;
otherwise insert a fresh row (with `created_dt = now` from the column
default and `email` NULL).  `newId` is the fresh primary key for the insert
case.  Returns the store plus the row the caller sees. -/
def create_verification_code (db : AuthDB) (user_id : Nat) (code : String)
    (now newId : Nat) : AuthDB × VerificationCodeRow :=
  match db.codes.find? (fun r => r.user_id == user_id) with
  | some existing_code =>
    let updated := { existing_code with code := code }
    ({ db with codes :=
        db.codes.map (fun r => if r.user_id == user_id then { r with code := code } else r) },
     updated)
  | none =>
    let new_verification_code : VerificationCodeRow := ⟨newId, user_id, none, code, now⟩
    ({ db with codes := db.codes ++ [new_verification_code] }, new_verification_code)

/-- `services/auth/crud.py` lines 181-197, `get_verification_code`: the query
filters on `UserVerificationCode.created_at`, but the model
(`db/models/users.py` lines 52-65) defines the column as `created_dt` and
has no `created_at` attribute, so building the filter raises
`AttributeError` before any row is examined. -/
def get_verification_code (db : AuthDB) (user_id : Nat) (code : String)
    (now : Nat) : Except PyErr (Option VerificationCodeRow) :=
  .error .attributeError

/-- The membership test the `get_verification_code` docstring and the spec
describe: user matches, code matches, and the row was created within the
last 15 minutes (`created_dt > now - 15min`, i.e. `created_dt + 900 > now`). -/
def verification_code_matches (r : VerificationCodeRow) (user_id : Nat)
    (code : String) (now : Nat) : Bool :=
  r.user_id == user_id && r.code == code && r.created_dt + 15 * 60 > now

/-- `services/auth/crud.py` lines 210-219, `update_user_password`: assigns
the argument string to `user.password` verbatim (the function's own comment
notes that hashing is not applied). -/
def update_user_password (user : User) (new_password : String) : User :=
  { user with password := Stored.plain new_password }

/-- Payload of `PATCH /user/settings` (`web/api/v1/user/schema.py`
`UserUpdate`); absent fields are `none`. -/
structure UserUpdate where
  login : Option String := none
  email : Option String := none
  password : Option String := none
  current_password : Option String := none
  first_name : Option String := none
  last_name : Option String := none
  deriving DecidableEq, Repr

/-- Pending ORM attribute changes of `current_user` become visible to
queries in the same session (autoflush), and `db.commit()` persists them:
both are modelled by writing the user object back into the store. -/
def flush_user (db : AuthDB) (u : User) : AuthDB :=
  { db with users := db.users.map (fun v => if v.id == u.id then u else v) }

/-- `web/api/v1/user/views.py` lines 90-159, `update_user_settings`.  A
field participates when it is present and non-empty (Python truthiness).
The email-change branch calls
`create_verification_code(db, id, code, email=...)`, but that function's
signature (`crud.py` line 147) has no `email` parameter, so the call raises
`TypeError`.  The password branch authenticates the current password and
then stores the new password through `update_user_password`.
`fresh_code` stands for the value `generate_verification_code` would draw. -/
def update_user_settings (db : AuthDB) (current_user : User)
    (user_update : UserUpdate) (fresh_code : String) :
    Except PyErr (AuthDB × User) :=
  -- login update (lines 108-115)
  let loginStep : Except PyErr User :=
    if user_update.login.getD "" != "" &&
        user_update.login.getD "" != current_user.login then
      match get_user_by_login db (user_update.login.getD "") with
      | some _ => .error (.http 400 "User with this login already exists")
      | none => .ok { current_user with login := user_update.login.getD "" }
    else .ok current_user
  match loginStep with
  | .error e => .error e
  | .ok u1 =>
    -- email update with confirmation (lines 118-131)
    if user_update.email.getD "" != "" && user_update.email.getD "" != u1.email then
      match get_user_by_email db (user_update.email.getD "") with
      | some _ => .error (.http 400 "User with this email already exists")
      | none =>
        -- create_verification_code(db, current_user.id, code, email=...):
        -- unexpected keyword argument `email` -> TypeError
        .error .typeError
    else
      -- password update (lines 134-144)
      let passStep : Except PyErr User :=
        if user_update.password.getD "" != "" &&
            user_update.current_password.getD "" != "" then
          match authenticate_user (flush_user db u1) u1.login
              (user_update.current_password.getD "") with
          | .error e => .error e
          | .ok _ => .ok (update_user_password u1 (user_update.password.getD ""))
        else .ok u1
      match passStep with
      | .error e => .error e
      | .ok u2 =>
        -- first/last name updates (lines 148-152), then commit (lines 155-157)
        let u3 := if user_update.first_name.getD "" != "" &&
            user_update.first_name.getD "" != u2.first_name then
          { u2 with first_name := user_update.first_name.getD "" } else u2
        let u4 := if user_update.last_name.getD "" != "" &&
            user_update.last_name.getD "" != u3.last_name then
          { u3 with last_name := user_update.last_name.getD "" } else u3
        .ok (flush_user db u4, u4)

/-- Row of `user_team_links` (`db/models/teams.py` lines 8-21). -/
structure UserTeamLink where
  id : Nat
  user_id : Nat
  role : Nat
  team_id : Nat
  deriving DecidableEq, Repr

/-- Row of `invitations` (`db/models/teams.py` lines 40-54). -/
structure Invitation where
  id : Nat
  team_id : Nat
  role_id : Nat
  inviting_user_id : Nat
  is_active : Bool
  users_accepted : Nat
  ttl_sec : Nat
  created_dt : Nat
  deriving DecidableEq, Repr

/-- The relational store seen by the team engine. -/
structure TeamDB where
  links : List UserTeamLink
  invitations : List Invitation
  deriving DecidableEq, Repr

/-- `services/teams/crud.py` lines 181-194, `get_user_role_in_team`:
`select(UserTeamLink.role)` followed by `.scalar()` — the result is the bare
role integer of the first matching link, or `None` when the user is not a
member.  It is *not* a `UserTeamLink` object. -/
def get_user_role_in_team (db : TeamDB) (user_id team_id : Nat) : Option Nat :=
  (db.links.find? (fun l => l.user_id == user_id && l.team_id == team_id)).map
    (fun l => l.role)

/-- Evaluating `x.role` where `x` is the value returned by
`get_user_role_in_team`: `x` is a Python `int` or `None`, and neither type
has a `role` attribute, so the access raises `AttributeError`
unconditionally. -/
def role_attr_of_scalar (x : Option Nat) : Except PyErr (Option Nat) :=
  .error .attributeError

/-- `services/teams/crud.py` lines 227-239. -/
def get_invitation_by_id (db : TeamDB) (invitation_id : Nat) : Option Invitation :=
  db.invitations.find? (fun i => i.id == invitation_id)

/-- `services/teams/crud.py` lines 252-273, `add_user_to_team`: insert a
membership link at the given role. -/
def add_user_to_team (db : TeamDB) (user_id team_id role_id newId : Nat) :
    TeamDB × UserTeamLink :=
  let user_team_link : UserTeamLink := ⟨newId, user_id, role_id, team_id⟩
  ({ db with links := db.links ++ [user_team_link] }, user_team_link)

/-- `web/api/v1/teams/views.py` lines 285-332,
`update_user_role_in_team_endpoint`: after the two role lookups, line 311
evaluates `current_user_role.role`; `get_user_role_in_team` returned a bare
int or `None` (crud.py 181-194), so every call raises `AttributeError`
there.  The rest of the handler — the `current_user_role.role <= 2 or
(user_role == 2 and current_user_role.role != 3)` guard, the 404 for a
missing target, the owner-only promotion check, the self-change check, the
`request.role_id == 3 and user_role.role == 3` demotion branch and the
final `user_role.role = request.role_id` write — is unreachable. -/
def update_user_role_in_team_endpoint (db : TeamDB)
    (current_user_id team_id user_id role_id : Nat) : Except PyErr TeamDB :=
  let current_user_role := get_user_role_in_team db current_user_id team_id
  let user_role := get_user_role_in_team db user_id team_id
  match role_attr_of_scalar current_user_role with
  | .error e => .error e
  | .ok _ => .ok db  -- unreachable: role_attr_of_scalar never succeeds

/-- `web/api/v1/teams/views.py` lines 139-194, `accept_team_invitation`:
404 when the invitation is missing; then the expiry check
`(now - created_dt).total_seconds() > ttl_sec` (400 "Invitation has
expired"); then the active check (400 "Invitation is not active"); then
line 174 evaluates `user_role.role` on the bare int/None returned by
`get_user_role_in_team`, raising `AttributeError`, so the membership
insertion and the `users_accepted` increment (lines 178-187) are
unreachable. -/
def accept_team_invitation (db : TeamDB) (current_user_id invitation_id : Nat)
    (now : Nat) : Except PyErr TeamDB :=
  match get_invitation_by_id db invitation_id with
  | none => .error (.http 404 "Invitation not found")
  | some invitation =>
    let user_role := get_user_role_in_team db current_user_id invitation.team_id
    if now - invitation.created_dt > invitation.ttl_sec then
      .error (.http 400 "Invitation has expired")
    else if !invitation.is_active then
      .error (.http 400 "Invitation is not active")
    else
      match role_attr_of_scalar user_role with
      | .error e => .error e
      | .ok _ => .ok db  -- unreachable: role_attr_of_scalar never succeeds

/-- View of an `Except` as a sum, to derive decidable equality. -/
def exceptToSum {ε α : Type} : Except ε α → ε ⊕ α
  | .error e => .inl e
  | .ok a => .inr a

instance {ε α : Type} [DecidableEq ε] [DecidableEq α] :
    DecidableEq (Except ε α) := fun a b =>
  decidable_of_iff (exceptToSum a = exceptToSum b)
    (by cases a <;> cases b <;> simp [exceptToSum])

/-! ### Concrete stores used to evaluate the claims -/

/-- C1 witness data: user 7 holds one live refresh row at `now = 50`. -/
def c1w_row : RefreshTokenRow := ⟨1, ⟨7, 900, true⟩, 7, 100, 0⟩

def c1w_db : AuthDB := ⟨[], [c1w_row], []⟩

/-- The refresh token minted at `now = 50` for user 7. -/
def c1w_tok : Jwt := ⟨7, 15552050, true⟩

def c1w_row2 : RefreshTokenRow := ⟨2, c1w_tok, 7, 15552000, 50⟩

def c1w_db2 : AuthDB := ⟨[], [c1w_row2], []⟩

/-- C2 data: team 5 with owner 10 (role 3) and member 11 (role 1). -/
def c2_db : TeamDB := ⟨[⟨1, 10, 3, 5⟩, ⟨2, 11, 1, 5⟩], []⟩

/-- C3 data: team 6 with admins 20 and 21 (role 2) and reader 22 (role 0). -/
def c3_db : TeamDB := ⟨[⟨1, 20, 2, 6⟩, ⟨2, 21, 2, 6⟩, ⟨3, 22, 0, 6⟩], []⟩

/-- C4 data: verified user 7 whose only refresh row expired long ago. -/
def c4_user : User := ⟨7, "alice", "alice@example.com", .hashed "pw", 1, "Alice", "A"⟩

def c4_refresh_row : RefreshTokenRow := ⟨1, ⟨7, 10, true⟩, 7, 10, 0⟩

def c4_db : AuthDB := ⟨[c4_user], [c4_refresh_row], []⟩

/-- A well-signed access token for user 7, expired at `now = 1000`. -/
def c4_cookie : Jwt := ⟨7, 5, true⟩

/-- C5 data: verified user changing their password via `PATCH /user/settings`. -/
def c5_user : User := ⟨9, "carol", "carol@example.com", .hashed "oldpw", 1, "Carol", "C"⟩

def c5_db : AuthDB := ⟨[c5_user], [], []⟩

def c5_update : UserUpdate :=
  { password := some "newpass123", current_password := some "oldpw" }

def c5_user_after : User := { c5_user with password := .plain "newpass123" }

/-- C6 data: a code row for user 1 created 500 seconds before `now = 10000`. -/
def c6_row : VerificationCodeRow := ⟨1, 1, none, "ABC123", 9500⟩

def c6_db : AuthDB := ⟨[], [], [c6_row]⟩

/-- C7 data: an active one-hour invitation to team 5; user 40 is not a member. -/
def c7_inv : Invitation := ⟨1, 5, 1, 10, true, 0, 3600, 1000⟩

def c7_db : TeamDB := ⟨[⟨1, 10, 3, 5⟩], [c7_inv]⟩

/-- C8 data: invitations with `ttl_sec = 60` created at `T0 = 1000`, one
active and one inactive. -/
def c8_inv_active : Invitation := ⟨1, 5, 1, 10, true, 0, 60, 1000⟩

def c8_inv_inactive : Invitation := ⟨1, 5, 1, 10, false, 0, 60, 1000⟩

def c8_db_active : TeamDB := ⟨[], [c8_inv_active]⟩

def c8_db_inactive : TeamDB := ⟨[], [c8_inv_inactive]⟩

/-- C9 data: user 42 already holds a code row created at time 100. -/
def c9_row : VerificationCodeRow := ⟨1, 42, none, "AAAAAA", 100⟩

def c9_db : AuthDB := ⟨[], [], [c9_row]⟩

def c9_row_after : VerificationCodeRow := ⟨1, 42, none, "BBBBBB", 100⟩

/-- C10 data: a user whose login contains `'@'` and differs from their email. -/
def c10_user : User := ⟨1, "bob@corp", "bob@mail.com", .hashed "pw123", 1, "Bob", "B"⟩

def c10_db : AuthDB := ⟨[c10_user], [], []⟩

/-- C10 witness data: a user authenticated through the email branch. -/
def c10w_user : User := ⟨2, "ann", "ann@x.com", .hashed "s3cret", 1, "Ann", "N"⟩

def c10w_db : AuthDB := ⟨[c10w_user], [], []⟩

/-! ### Helper lemmas -/

theorem eq_singleton_of_mem_of_length_le_one {α : Type} {l : List α} {a : α}
    (ha : a ∈ l) (hl : l.length ≤ 1) : l = [a] := by
  match l with
  | [] => cases ha
  | [x] =>
    obtain rfl : a = x := by simpa using ha
    rfl
  | x :: y :: t => simp [List.length_cons] at hl

theorem filter_erase_of_pred {α : Type} [DecidableEq α] (p : α → Bool) (a : α)
    (hpa : p a = true) (l : List α) :
    (l.erase a).filter p = (l.filter p).erase a := by
  induction l with
  | nil => rfl
  | cons b t ih =>
    by_cases hba : b = a
    · subst hba
      simp [List.erase_cons, List.filter_cons, hpa]
    · cases hpb : p b <;>
        simp [List.erase_cons, List.filter_cons, hba, hpb, ih]

theorem filter_and_nil {α : Type} (p q : α → Bool) (l : List α)
    (h : l.filter p = []) : l.filter (fun a => p a && q a) = [] := by
  induction l with
  | nil => rfl
  | cons b t ih =>
    by_cases hb : p b = true
    · rw [List.filter_cons_of_pos hb] at h
      cases h
    · rw [List.filter_cons_of_neg (by simpa using hb)] at h
      rw [List.filter_cons_of_neg (by simp [hb])]
      exact ih h

theorem auth_lookup_of_ok {db : AuthDB} {l p : String} {u : User}
    (h : authenticate_user db l p = .ok u) :
    (if containsAt l then get_user_by_email db l else get_user_by_login db l) =
      some u := by
  unfold authenticate_user at h
  cases ho : (if containsAt l then get_user_by_email db l
              else get_user_by_login db l) with
  | none => rw [ho] at h; exact Except.noConfusion h
  | some v =>
    rw [ho] at h
    cases hv : verify_password p v.password with
    | false => simp [hv] at h
    | true =>
      simp [hv] at h
      rw [h]

theorem get_active_of_head_none (db : AuthDB) (user_id now : Nat)
    (h : (db.refreshTokens.filter (fun r => r.user_id == user_id)).head? = none) :
    get_active_refresh_token db user_id now = .ok (none, db) := by
  unfold get_active_refresh_token
  rw [h]

theorem get_active_of_head_live (db : AuthDB) (user_id now : Nat)
    (r : RefreshTokenRow)
    (h : (db.refreshTokens.filter (fun x => x.user_id == user_id)).head? = some r)
    (hl : r.created_dt + r.ttl_sec > now) :
    get_active_refresh_token db user_id now = .ok (some r, db) := by
  unfold get_active_refresh_token
  rw [h]
  exact if_pos hl

theorem get_active_of_head_dead (db : AuthDB) (user_id now : Nat)
    (r : RefreshTokenRow)
    (h : (db.refreshTokens.filter (fun x => x.user_id == user_id)).head? = some r)
    (hl : ¬ r.created_dt + r.ttl_sec > now) :
    get_active_refresh_token db user_id now = .error .attributeError := by
  unfold get_active_refresh_token
  rw [h]
  exact if_neg hl

/-! ### Claim theorems -/

/-- C1: refresh-token issuance preserves the at-most-one-live-row invariant:
starting from a store with at most one live refresh-token row for the user,
a completed `create_and_store_refresh_token` leaves exactly one live
refresh-token row for that user, whose value is the returned token (created
at the call instant with the configured 180-day ttl). -/
theorem refresh_issue_single_live_row
    (db : AuthDB) (user_id now newId : Nat) (tok : Jwt) (db' : AuthDB)
    (hinv : (liveTokensFor db user_id now).length ≤ 1)
    (hok : create_and_store_refresh_token user_id db now newId =
      .ok (tok, db')) :
    liveTokensFor db' user_id now =
      [⟨newId, tok, user_id, refresh_token_expire_days * 86400, now⟩] := by
  unfold create_and_store_refresh_token at hok
  cases h1 : (db.refreshTokens.filter (fun x => x.user_id == user_id)).head? with
  | none =>
    rw [get_active_of_head_none db user_id now h1] at hok
    simp only [Except.ok.injEq, Prod.mk.injEq] at hok
    obtain ⟨rfl, rfl⟩ := hok
    have hrows : db.refreshTokens.filter (fun x => x.user_id == user_id) = [] :=
      List.head?_eq_none_iff.mp h1
    have hzero :
        db.refreshTokens.filter
          (fun x => x.user_id == user_id && x.liveAt now) = [] :=
      filter_and_nil _ _ _ hrows
    unfold liveTokensFor
    simp only [List.filter_append, hzero, List.nil_append]
    simp [RefreshTokenRow.liveAt, refresh_token_expire_days]
  | some r =>
    by_cases h2 : r.created_dt + r.ttl_sec > now
    · rw [get_active_of_head_live db user_id now r h1 h2] at hok
      simp only [Except.ok.injEq, Prod.mk.injEq] at hok
      obtain ⟨rfl, rfl⟩ := hok
      have hrmem_f : r ∈ db.refreshTokens.filter (fun x => x.user_id == user_id) := by
        cases hfl : db.refreshTokens.filter (fun x => x.user_id == user_id) with
        | nil => rw [hfl] at h1; cases h1
        | cons a t =>
          rw [hfl, List.head?_cons] at h1
          injection h1 with ha
          exact ha ▸ List.mem_cons_self a t
      have hmem : r ∈ db.refreshTokens := (List.mem_filter.mp hrmem_f).1
      have huser : (r.user_id == user_id) = true := (List.mem_filter.mp hrmem_f).2
      have hp : (fun x => x.user_id == user_id && x.liveAt now) r = true := by
        simp [huser, RefreshTokenRow.liveAt, h2]
      have hlt : r ∈ liveTokensFor db user_id now :=
        List.mem_filter.mpr ⟨hmem, hp⟩
      have hsingle : liveTokensFor db user_id now = [r] :=
        eq_singleton_of_mem_of_length_le_one hlt hinv
      unfold liveTokensFor at hsingle ⊢
      simp only [List.filter_append]
      rw [filter_erase_of_pred (fun x => x.user_id == user_id && x.liveAt now)
            r hp db.refreshTokens,
          hsingle, List.erase_cons_head]
      simp [RefreshTokenRow.liveAt, refresh_token_expire_days]
    · rw [get_active_of_head_dead db user_id now r h1 h2] at hok
      exact Except.noConfusion hok

/-- Witness for C1: a store holding one live refresh-token row for user 7;
issuance at `now = 50` leaves exactly the freshly inserted row live. -/
theorem refresh_issue_single_live_row_witness :
    liveTokensFor c1w_db2 7 50 = [c1w_row2] :=
  refresh_issue_single_live_row c1w_db 7 50 2 c1w_tok c1w_db2
    (by decide) (by decide)

/-- C2: in a team whose owner (user 10, role 3) promotes an existing member
(user 11, role 1) to role 3, the endpoint does not perform the promotion or
the demotion of the caller: it raises `AttributeError` (HTTP 500), because
it reads `.role` on the bare int returned by `get_user_role_in_team`. -/
theorem owner_promotion_raises_attribute_error :
    get_user_role_in_team c2_db 10 5 = some 3 ∧
    get_user_role_in_team c2_db 11 5 = some 1 ∧
    update_user_role_in_team_endpoint c2_db 10 5 11 3 =
      .error .attributeError :=
  ⟨rfl, rfl, rfl⟩

/-- C3: a role-2 admin (user 20) targeting another role-2 member (user 21)
and the same admin targeting a role-0 member (user 22) both end in
`AttributeError` (HTTP 500): neither the claimed `Forbidden` nor the claimed
success occurs. -/
theorem admin_role_update_raises_attribute_error :
    get_user_role_in_team c3_db 20 6 = some 2 ∧
    get_user_role_in_team c3_db 21 6 = some 2 ∧
    get_user_role_in_team c3_db 22 6 = some 0 ∧
    update_user_role_in_team_endpoint c3_db 20 6 21 1 =
      .error .attributeError ∧
    update_user_role_in_team_endpoint c3_db 20 6 22 1 =
      .error .attributeError :=
  ⟨rfl, rfl, rfl, rfl, rfl⟩

/-- C4: with an expired but well-signed access token for user 7 and a
refresh-token row for user 7 that is itself expired (so no live refresh
token exists), the session resolver does not fail with
`Unauthenticated("Refresh token not found or expired")`: the lazy-expiry
deletion inside `get_active_refresh_token` calls `.delete()` on a `Select`
and the request dies with `AttributeError`. -/
theorem renewal_with_expired_refresh_row_crashes :
    verify_token c4_cookie 1000 true = .error .expiredSignature ∧
    c4_cookie.goodSig = true ∧
    liveTokensFor c4_db 7 1000 = [] ∧
    get_current_user c4_db (some c4_cookie) false 1000 =
      .error .attributeError :=
  ⟨rfl, rfl, rfl, rfl⟩

/-- C5: the settings-update flow stores the submitted new password verbatim:
after `PATCH /user/settings` with `password = "newpass123"` and the correct
current password, the stored password field is the plaintext
`"newpass123"`, not a hash of it. -/
theorem settings_update_stores_plaintext_password :
    update_user_settings c5_db c5_user c5_update "QQQQQQ" =
      .ok (⟨[c5_user_after], [], []⟩, c5_user_after) ∧
    c5_user_after.password = .plain "newpass123" ∧
    c5_user_after.password ≠ get_password_hash "newpass123" :=
  ⟨rfl, rfl, by decide⟩

/-- C6: on a store holding a code row for user 1 that matches the submitted
code and was created 500 seconds ago (well within the 15-minute window), the
lookup does not return the record: it raises `AttributeError`, because the
query references the nonexistent column `created_at` (the model defines
`created_dt`). -/
theorem verification_lookup_raises_attribute_error :
    verification_code_matches c6_row 1 "ABC123" 10000 = true ∧
    get_verification_code c6_db 1 "ABC123" 10000 = .error .attributeError :=
  ⟨rfl, rfl⟩

/-- C7: for an existing, active, unexpired invitation to team 5 accepted by
user 40 who holds no role in that team, the endpoint does not insert a
membership link or increment the accepted-count: it raises `AttributeError`
at the `user_role.role` member check. -/
theorem invitation_accept_crashes_before_membership_insert :
    get_invitation_by_id c7_db 1 = some c7_inv ∧
    c7_inv.is_active = true ∧
    1500 - c7_inv.created_dt ≤ c7_inv.ttl_sec ∧
    get_user_role_in_team c7_db 40 5 = none ∧
    accept_team_invitation c7_db 40 1 1500 = .error .attributeError :=
  ⟨rfl, rfl, by decide, rfl, rfl⟩

/-- C8: an invitation with `ttl_sec = 60` created at `T0 = 1000` passes the
expiry check at `T0 + 59` (the outcome is never the expiry error, whatever
the active flag), and at `T0 + 61` the acceptance fails with the expiry
error both when the invitation is active and when it is inactive. -/
theorem invitation_expiry_window :
    accept_team_invitation c8_db_active 30 1 1059 ≠
      .error (.http 400 "Invitation has expired") ∧
    accept_team_invitation c8_db_inactive 30 1 1059 ≠
      .error (.http 400 "Invitation has expired") ∧
    accept_team_invitation c8_db_active 30 1 1061 =
      .error (.http 400 "Invitation has expired") ∧
    accept_team_invitation c8_db_inactive 30 1 1061 =
      .error (.http 400 "Invitation has expired") :=
  ⟨by decide, by decide, rfl, rfl⟩

/-- C9: re-issuing a verification code for user 42 (existing row created at
time 100, call made at time 5000) keeps a single row and replaces the code,
but leaves `created_dt` at 100 — the creation timestamp and pending-email
value are not overwritten, contrary to the claim. -/
theorem code_upsert_keeps_created_dt :
    (create_verification_code c9_db 42 "BBBBBB" 5000 2).1.codes =
      [c9_row_after] ∧
    c9_row_after.code = "BBBBBB" ∧
    c9_row_after.created_dt = 100 ∧
    (100 : Nat) ≠ 5000 :=
  ⟨rfl, rfl, rfl, by decide⟩

/-- C10: `authenticate_user` dispatches on `'@'`: when the identifier
contains `'@'` a successful authentication can only come from the email
column, and otherwise only from the login column; consequently the user
whose login `"bob@corp"` contains `'@'` and differs from their email cannot
log in with that login and their correct password — the call fails with 401
`Invalid credentials`. -/
theorem authenticate_dispatch_on_at_sign :
    (∀ db l p u, containsAt l = true → authenticate_user db l p = .ok u →
        get_user_by_email db l = some u) ∧
    (∀ db l p u, containsAt l = false → authenticate_user db l p = .ok u →
        get_user_by_login db l = some u) ∧
    containsAt c10_user.login = true ∧
    c10_user.email ≠ c10_user.login ∧
    verify_password "pw123" c10_user.password = true ∧
    authenticate_user c10_db c10_user.login "pw123" =
      .error (.http 401 "Invalid credentials") := by
  refine ⟨?_, ?_, by decide, by decide, by decide, by decide⟩
  · intro db l p u hat hok
    have h := auth_lookup_of_ok hok
    rwa [hat, if_pos rfl] at h
  · intro db l p u hat hok
    have h := auth_lookup_of_ok hok
    rwa [hat, if_neg (by simp)] at h

/-- Witness for C10: a concrete successful authentication through the email
branch, obtained by applying the dispatch theorem. -/
theorem authenticate_dispatch_on_at_sign_witness :
    get_user_by_email c10w_db "ann@x.com" = some c10w_user :=
  authenticate_dispatch_on_at_sign.1 c10w_db "ann@x.com" "s3cret" c10w_user
    (by decide) (by decide)

end Tevas
